import Mathlib

/-!
# Verification of the Stumble Higher scoring and ranking engine

Shallow embedding of the quality-scoring / auto-moderation / recommendation /
reward pipeline of the Stumble Higher repository.

The embedded code comes from:
* the SQL schema (`schema.sql`: tables `users`, `resources`, `votes`,
  `user_interactions`, `user_preferences`, `weekly_rewards`,
  `reward_distributions`, `system_config`);
* the SQL stored procedures (`functions.sql`: `calculate_quality_score`,
  `update_resource_scores`, `update_trending_scores`,
  `get_personalized_recommendations`, `calculate_weekly_rewards`);
* the API route handlers `src/app/api/votes/route.ts` (vote toggling) and
  the discovery route (`GET /api/discover` with its strategy helpers).

Modelling conventions:
* SQL `DECIMAL` / `NUMERIC` values and timestamps are rationals (`ℚ`);
  timestamps are measured in days so `INTERVAL '7 days'` is the rational `7`.
* SQL `NULL`-able configuration reads (`SELECT ... INTO` without `STRICT`,
  which silently leaves the variable `NULL` when the key is absent) are
  `Option` values, and the three-valued logic of SQL boolean expressions over
  them is modelled by `sqlAnd` on `Option Bool`; a PL/pgSQL `IF` treats a
  `NULL` condition like `FALSE`.
* Bookkeeping timestamps (`updated_at`, `last_viewed_at`,
  `calculation_completed_at`) are omitted or reduced to flags: no embedded
  computation reads them.
-/

namespace StumbleHigher

/-! ## Data model (from the SQL schema) -/

/-- `vote_type TEXT CHECK (vote_type IN ('up', 'down'))`. -/
inductive VoteType
  | up
  | down
deriving DecidableEq

/-- `status TEXT CHECK (status IN ('pending','approved','rejected','hidden'))`. -/
inductive Status
  | pending
  | approved
  | rejected
  | hidden
deriving DecidableEq

/-- `difficulty_level TEXT CHECK (... IN ('beginner','intermediate','advanced'))`. -/
inductive Difficulty
  | beginner
  | intermediate
  | advanced
deriving DecidableEq

/-- `interaction_type` values used by the code ('view', 'favorite', 'share',
'complete', 'click_through', 'skip'). -/
inductive InteractionType
  | view
  | favorite
  | share
  | complete
  | click_through
  | skip
deriving DecidableEq

/-- Row of `users` (the columns the embedded routines read). -/
structure User where
  id : Nat
  reputation_score : Int
deriving DecidableEq

/-- Row of `resources` (the columns the embedded routines read).
`submission_tx_hash` is `TEXT`; only `IS NOT NULL` is ever tested, so it is
modelled as `Option Nat`. -/
structure Resource where
  id : Nat
  category : String
  tags : List String
  difficulty_level : Option Difficulty
  estimated_time_minutes : Option Int
  submitted_by : Nat
  submission_tx_hash : Option Nat
  submission_amount : ℚ
  status : Status
  upvotes : Nat
  downvotes : Nat
  quality_score : ℚ
  trending_score : ℚ
  created_at : ℚ
deriving DecidableEq

/-- Row of `votes` (`UNIQUE(resource_id, user_id)` is a table constraint,
stated as an invariant where needed, not baked into the type). -/
structure Vote where
  id : Nat
  resource_id : Nat
  user_id : Nat
  vote_type : VoteType
  weight : ℚ
  created_at : ℚ
deriving DecidableEq

/-- Row of `user_interactions` (`user_id` is nullable — anonymous sessions). -/
structure Interaction where
  user_id : Option Nat
  resource_id : Nat
  interaction_type : InteractionType
  created_at : ℚ
deriving DecidableEq

/-- Row of `user_preferences` (the columns `get_personalized_recommendations`
reads; `discovery_algorithm` is selected by the SQL but never used). -/
structure UserPref where
  user_id : Nat
  preferred_categories : List String
  excluded_categories : List String
  max_time_minutes : Option Int
deriving DecidableEq

/-- Row of `weekly_rewards`; `calculation_completed_at IS NOT NULL` is the
flag `calculation_completed`. -/
structure WeeklyReward where
  id : Nat
  week_start : ℚ
  week_end : ℚ
  total_pool_amount : ℚ
  calculation_completed : Bool
deriving DecidableEq

/-- Row of `reward_distributions`. -/
structure RewardDistribution where
  weekly_reward_id : Nat
  user_id : Nat
  resource_id : Nat
  amount : ℚ
  rank : Nat
  quality_score : ℚ
deriving DecidableEq

/-- The `system_config` key-value rows the embedded routines read.  The three
scorer keys are read by `SELECT ... INTO` without `STRICT`, which yields SQL
`NULL` (here `none`) when the key is absent. -/
structure Config where
  auto_approve_threshold : Option ℚ
  auto_hide_threshold : Option ℚ
  min_votes_for_auto_action : Option Int
  weekly_distribution_percentage : ℚ
deriving DecidableEq

/-- A database state: the tables the embedded routines touch. -/
structure DB where
  users : List User
  resources : List Resource
  votes : List Vote
  interactions : List Interaction
  prefs : List UserPref
  weekly_rewards : List WeeklyReward
  reward_distributions : List RewardDistribution
  config : Config
deriving DecidableEq

/-! ## SQL three-valued logic helpers -/

/-- SQL `AND` on possibly-`NULL` booleans: `NULL AND FALSE = FALSE`,
`NULL AND TRUE = NULL`. -/
def sqlAnd : Option Bool → Option Bool → Option Bool
  | some false, _ => some false
  | _, some false => some false
  | some true, some true => some true
  | _, _ => none

/-! ## Quality Scorer (`calculate_quality_score`) -/

/-- The `RETURNS TABLE` row of `calculate_quality_score`.  The two verdict
booleans are `Option Bool` because the thresholds they compare against can be
SQL `NULL` when a `system_config` key is absent. -/
structure QualityScore where
  upvotes : Nat
  downvotes : Nat
  weighted_score : ℚ
  voter_count : Nat
  should_auto_approve : Option Bool
  should_auto_hide : Option Bool
deriving DecidableEq

/-- One vote's contribution to `calculated_score`:
`WHEN 'up' THEN LEAST(reputation_score * 0.1 + 1, 5.0)`,
`WHEN 'down' THEN -LEAST(reputation_score * 0.1 + 1, 5.0)`. -/
def voteContribution (vt : VoteType) (rep : Int) : ℚ :=
  match vt with
  | VoteType.up => min ((rep : ℚ) * (1 / 10) + 1) 5
  | VoteType.down => -(min ((rep : ℚ) * (1 / 10) + 1) 5)

/-- `FROM votes v JOIN users u ON v.user_id = u.id WHERE v.resource_id = rid`:
the joined rows the `vote_stats` CTE aggregates over. -/
def voteRows (db : DB) (rid : Nat) : List (Vote × User) :=
  db.votes.filterMap (fun v =>
    if v.resource_id = rid then
      (db.users.find? (fun u => decide (u.id = v.user_id))).map (fun u => (v, u))
    else none)

/-- `calculate_quality_score(resource_id)`: aggregates the resource's votes
into raw up/down counts, distinct-voter count and the reputation-weighted
score, then compares against the `system_config` thresholds (which may be
SQL `NULL`). -/
def calculate_quality_score (db : DB) (rid : Nat) : QualityScore :=
  let rows := voteRows db rid
  let up_count := (rows.filter (fun p => decide (p.1.vote_type = VoteType.up))).length
  let down_count := (rows.filter (fun p => decide (p.1.vote_type = VoteType.down))).length
  let total_voters := ((rows.map (fun p => p.1.user_id)).dedup).length
  let calculated_score :=
    (rows.map (fun p => voteContribution p.1.vote_type p.2.reputation_score)).sum
  { upvotes := up_count
    downvotes := down_count
    weighted_score := calculated_score
    voter_count := total_voters
    should_auto_approve :=
      sqlAnd (db.config.auto_approve_threshold.map (fun t => decide (t ≤ calculated_score)))
        (db.config.min_votes_for_auto_action.map (fun m => decide (m ≤ (total_voters : Int))))
    should_auto_hide :=
      sqlAnd (db.config.auto_hide_threshold.map (fun t => decide (calculated_score ≤ t)))
        (db.config.min_votes_for_auto_action.map (fun m => decide (m ≤ (total_voters : Int)))) }

/-! ## Concrete sample states -/

/-- The `system_config` values seeded by the schema
(`auto_approve_threshold = 10`, `auto_hide_threshold = -5`,
`min_votes_for_auto_action = 3`, `weekly_distribution_percentage = 80`). -/
def cfgDefault : Config :=
  { auto_approve_threshold := some 10
    auto_hide_threshold := some (-5)
    min_votes_for_auto_action := some 3
    weekly_distribution_percentage := 80 }

/-- A sample resource in `pending` status. -/
def sampleResource : Resource :=
  { id := 1
    category := "articles"
    tags := ["inspiring"]
    difficulty_level := some Difficulty.intermediate
    estimated_time_minutes := some 10
    submitted_by := 99
    submission_tx_hash := some 0
    submission_amount := 1000
    status := Status.pending
    upvotes := 0
    downvotes := 0
    quality_score := 0
    trending_score := 0
    created_at := 0 }

/-- The spec's worked example: resource 1 with three up-votes from users of
reputation 0, 20 and 50. -/
def dbExample : DB :=
  { users := [⟨2, 0⟩, ⟨3, 20⟩, ⟨4, 50⟩, ⟨99, 0⟩]
    resources := [sampleResource]
    votes :=
      [⟨10, 1, 2, VoteType.up, 1, 0⟩, ⟨11, 1, 3, VoteType.up, 3, 0⟩,
        ⟨12, 1, 4, VoteType.up, 5, 0⟩]
    interactions := []
    prefs := []
    weekly_rewards := []
    reward_distributions := []
    config := cfgDefault }

/-! ## C1: weighted score formula and the 5.0 cap -/

/-- C1: `calculate_quality_score` returns `weighted_score` equal to the sum,
over the resource's votes (joined with their voters), of
`min(reputation * 0.1 + 1, 5.0)` for an up vote and the negation of that for
a down vote; and for any voter reputation `R ≥ 0` a single vote's
contribution magnitude is exactly `min(0.1 * R + 1, 5.0)`, which never
exceeds `5.0`. -/
theorem weighted_score_is_capped_reputation_sum (db : DB) (rid : Nat) :
    (calculate_quality_score db rid).weighted_score
      = ((voteRows db rid).map
          (fun p => voteContribution p.1.vote_type p.2.reputation_score)).sum
    ∧ ∀ R : Int, 0 ≤ R →
        (∀ vt : VoteType, |voteContribution vt R| = min ((R : ℚ) * (1 / 10) + 1) 5)
        ∧ min ((R : ℚ) * (1 / 10) + 1) 5 ≤ 5 := by
  refine ⟨rfl, ?_⟩
  intro R hR
  have hnn : (0 : ℚ) ≤ min ((R : ℚ) * (1 / 10) + 1) 5 := by
    have hR' : (0 : ℚ) ≤ (R : ℚ) := by exact_mod_cast hR
    apply le_min
    · nlinarith
    · norm_num
  refine ⟨?_, min_le_right _ _⟩
  intro vt
  cases vt with
  | up => simpa [voteContribution] using abs_of_nonneg hnn
  | down => simpa [voteContribution, abs_neg] using abs_of_nonneg hnn

/-- Witness for C1 at the spec's worked example (reputation 20, up vote):
contribution magnitude is `min(0.1 * 20 + 1, 5) = 3 ≤ 5`. -/
theorem weighted_score_is_capped_reputation_sum_witness :
    |voteContribution VoteType.up 20| = min ((20 : ℚ) * (1 / 10) + 1) 5
      ∧ min ((20 : ℚ) * (1 / 10) + 1) 5 ≤ 5 :=
  ⟨((weighted_score_is_capped_reputation_sum dbExample 1).2 20 (by norm_num)).1 VoteType.up,
    ((weighted_score_is_capped_reputation_sum dbExample 1).2 20 (by norm_num)).2⟩

/-! ## Resource State Updater (`update_resource_scores`) -/

/-- The first `UPDATE resources SET upvotes = ..., downvotes = ...,
quality_score = ... WHERE id = resource_id` of `update_resource_scores`,
as a per-row function. -/
def scoreOnlyUpdate (rid : Nat) (sd : QualityScore) (r : Resource) : Resource :=
  if r.id = rid then
    { r with
        upvotes := sd.upvotes
        downvotes := sd.downvotes
        quality_score := sd.weighted_score }
  else r

/-- `UPDATE resources SET status = s WHERE id = resource_id`. -/
def setStatus (db : DB) (rid : Nat) (s : Status) : DB :=
  { db with resources :=
      db.resources.map (fun r => if r.id = rid then { r with status := s } else r) }

/-- `SELECT status INTO resource_status FROM resources WHERE id = resource_id`
(`none` when the resource does not exist, i.e. SQL `NULL`). -/
def statusRead (db : DB) (rid : Nat) : Option Status :=
  (db.resources.find? (fun r => decide (r.id = rid))).map (fun r => r.status)

/-- `update_resource_scores(resource_id)`: recompute the quality score, write
the counts and score onto the resource, and — only when the status read
before the update is `pending` — apply the auto-approve / auto-hide verdict
(a PL/pgSQL `IF` treats a `NULL` verdict like `FALSE`, hence `= some true`). -/
def update_resource_scores (db : DB) (rid : Nat) : DB :=
  let score_data := calculate_quality_score db rid
  let resource_status := statusRead db rid
  let db1 := { db with resources := db.resources.map (scoreOnlyUpdate rid score_data) }
  if resource_status = some Status.pending then
    if score_data.should_auto_approve = some true then setStatus db1 rid Status.approved
    else if score_data.should_auto_hide = some true then setStatus db1 rid Status.hidden
    else db1
  else db1

theorem scoreOnlyUpdate_status (rid : Nat) (sd : QualityScore) (r : Resource) :
    (scoreOnlyUpdate rid sd r).status = r.status := by
  unfold scoreOnlyUpdate
  split <;> rfl

theorem scoreOnlyUpdate_id (rid : Nat) (sd : QualityScore) (r : Resource) :
    (scoreOnlyUpdate rid sd r).id = r.id := by
  unfold scoreOnlyUpdate
  split <;> rfl

/-- C2: when no resource with the given id is currently `pending`,
`update_resource_scores` performs exactly the scores-only rewrite (upvotes,
downvotes, quality_score) and leaves every resource's status unchanged — so
a resource that was auto-approved from pending never reverts automatically
through this path. -/
theorem no_auto_transition_unless_pending (db : DB) (rid : Nat)
    (h : ∀ r ∈ db.resources, r.id = rid → r.status ≠ Status.pending) :
    (update_resource_scores db rid).resources
      = db.resources.map (scoreOnlyUpdate rid (calculate_quality_score db rid))
    ∧ (update_resource_scores db rid).resources.map (fun r => r.status)
      = db.resources.map (fun r => r.status) := by
  have hne : statusRead db rid ≠ some Status.pending := by
    intro hcontra
    unfold statusRead at hcontra
    cases hfind : db.resources.find? (fun r => decide (r.id = rid)) with
    | none => rw [hfind] at hcontra; simp at hcontra
    | some r =>
        rw [hfind] at hcontra
        simp only [Option.map_some'] at hcontra
        have hmem : r ∈ db.resources := List.mem_of_find?_eq_some hfind
        have hid : r.id = rid := by simpa using List.find?_some hfind
        exact h r hmem hid (by simpa using hcontra)
  have hres : (update_resource_scores db rid).resources
      = db.resources.map (scoreOnlyUpdate rid (calculate_quality_score db rid)) := by
    unfold update_resource_scores
    simp only [if_neg hne]
  refine ⟨hres, ?_⟩
  rw [hres, List.map_map]
  exact List.map_congr_left (fun r _ => scoreOnlyUpdate_status rid _ r)

/-- The sample resource in `approved` status. -/
def approvedSample : Resource := { sampleResource with status := Status.approved }

/-- The example database with resource 1 already `approved`. -/
def dbApproved : DB := { dbExample with resources := [approvedSample] }

/-- Witness for C2: on the approved sample resource, the update rewrites only
the scores and keeps every status. -/
theorem no_auto_transition_unless_pending_witness :
    (update_resource_scores dbApproved 1).resources
      = dbApproved.resources.map (scoreOnlyUpdate 1 (calculate_quality_score dbApproved 1))
    ∧ (update_resource_scores dbApproved 1).resources.map (fun r => r.status)
      = dbApproved.resources.map (fun r => r.status) :=
  no_auto_transition_unless_pending dbApproved 1 (by decide)

/-- C9: for a `pending` resource whose verdict has `should_auto_approve` true
(even when `should_auto_hide` is also true, possible when
`auto_approve_threshold ≤ auto_hide_threshold`), `update_resource_scores`
sets the status to `approved`, never `hidden`: the `IF`/`ELSIF` chain checks
approval first. -/
theorem auto_approve_precedes_auto_hide (db : DB) (rid : Nat)
    (hp : statusRead db rid = some Status.pending)
    (ha : (calculate_quality_score db rid).should_auto_approve = some true)
    (_hh : (calculate_quality_score db rid).should_auto_hide = some true) :
    (update_resource_scores db rid).resources
      = db.resources.map (fun r =>
          if r.id = rid then
            { r with
                upvotes := (calculate_quality_score db rid).upvotes
                downvotes := (calculate_quality_score db rid).downvotes
                quality_score := (calculate_quality_score db rid).weighted_score
                status := Status.approved }
          else r) := by
  unfold update_resource_scores
  simp only [hp, ha, if_pos, if_true, setStatus, List.map_map]
  apply List.map_congr_left
  intro r _
  by_cases hid : r.id = rid
  · simp [scoreOnlyUpdate, hid]
  · simp [scoreOnlyUpdate, hid]

/-- A database whose config makes both verdicts true at once
(`auto_approve_threshold = auto_hide_threshold = 0`,
`min_votes_for_auto_action = 0`) with resource 1 pending and no votes. -/
def dbBothVerdicts : DB :=
  { users := []
    resources := [sampleResource]
    votes := []
    interactions := []
    prefs := []
    weekly_rewards := []
    reward_distributions := []
    config :=
      { auto_approve_threshold := some 0
        auto_hide_threshold := some 0
        min_votes_for_auto_action := some 0
        weekly_distribution_percentage := 80 } }

/-- Witness for C9: with both verdicts true on the pending sample resource,
the update approves it. -/
theorem auto_approve_precedes_auto_hide_witness :
    (update_resource_scores dbBothVerdicts 1).resources
      = dbBothVerdicts.resources.map (fun r =>
          if r.id = 1 then
            { r with
                upvotes := (calculate_quality_score dbBothVerdicts 1).upvotes
                downvotes := (calculate_quality_score dbBothVerdicts 1).downvotes
                quality_score := (calculate_quality_score dbBothVerdicts 1).weighted_score
                status := Status.approved }
          else r) :=
  auto_approve_precedes_auto_hide dbBothVerdicts 1 (by decide) (by decide) (by decide)

/-! ## Trending Calculator (`update_trending_scores`) -/

/-- `SELECT COUNT(*) FROM user_interactions ui WHERE ui.resource_id = id AND
ui.interaction_type = 'view' AND ui.created_at > NOW() - INTERVAL '7 days'`. -/
def recentViewCount (db : DB) (now : ℚ) (rid : Nat) : Nat :=
  (db.interactions.filter (fun ui =>
    decide (ui.resource_id = rid) && decide (ui.interaction_type = InteractionType.view)
      && decide (now - 7 < ui.created_at))).length

/-- `SELECT COUNT(*) FROM votes v WHERE v.resource_id = id AND
v.created_at > NOW() - INTERVAL '7 days'`. -/
def recentVoteCount (db : DB) (now : ℚ) (rid : Nat) : Nat :=
  (db.votes.filter (fun v =>
    decide (v.resource_id = rid) && decide (now - 7 < v.created_at))).length

/-- The recency-bonus `CASE`: 5.0 if created in the last 3 days, 2.0 within
7 days, 1.0 within 30 days, else 0.0 (time in days). -/
def recencyBonus (now created : ℚ) : ℚ :=
  if now - 3 < created then 5
  else if now - 7 < created then 2
  else if now - 30 < created then 1
  else 0

/-- The per-row effect of the `UPDATE resources SET trending_score = ...
WHERE status = 'approved'` in `update_trending_scores`. -/
def trendingRow (db : DB) (now : ℚ) (r : Resource) : Resource :=
  if r.status = Status.approved then
    { r with trending_score :=
        r.quality_score * (4 / 10)
          + (recentViewCount db now r.id : ℚ) * (3 / 10)
          + (recentVoteCount db now r.id : ℚ) * (2 / 10)
          + recencyBonus now r.created_at * (1 / 10) }
  else r

/-- `update_trending_scores()`: batch recompute of `trending_score` over all
approved resources; the correlated subqueries read the (unchanged) votes and
interactions tables. -/
def update_trending_scores (db : DB) (now : ℚ) : DB :=
  { db with resources := db.resources.map (trendingRow db now) }

/-- C8: `update_trending_scores` rewrites each approved resource's (and no
other resource's) `trending_score` to `0.4*quality_score + 0.3*views7d +
0.2*votes7d + 0.1*recency_bonus`, where the recency bonus is 5.0 within 3
days of creation, 2.0 within 7, 1.0 within 30, else 0.0. -/
theorem trending_scores_formula (db : DB) (now : ℚ) :
    (update_trending_scores db now).resources = db.resources.map (trendingRow db now)
    ∧ (∀ r : Resource,
        (r.status = Status.approved →
          trendingRow db now r
            = { r with trending_score :=
                  (4 / 10) * r.quality_score
                    + (3 / 10) * (recentViewCount db now r.id : ℚ)
                    + (2 / 10) * (recentVoteCount db now r.id : ℚ)
                    + (1 / 10) * recencyBonus now r.created_at })
        ∧ (r.status ≠ Status.approved → trendingRow db now r = r))
    ∧ ∀ t c : ℚ, recencyBonus t c
        = if t - c < 3 then 5 else if t - c < 7 then 2 else if t - c < 30 then 1 else 0 := by
  refine ⟨rfl, ?_, ?_⟩
  · intro r
    constructor
    · intro h
      have hscore : r.quality_score * (4 / 10)
            + (recentViewCount db now r.id : ℚ) * (3 / 10)
            + (recentVoteCount db now r.id : ℚ) * (2 / 10)
            + recencyBonus now r.created_at * (1 / 10)
          = (4 / 10) * r.quality_score
            + (3 / 10) * (recentViewCount db now r.id : ℚ)
            + (2 / 10) * (recentVoteCount db now r.id : ℚ)
            + (1 / 10) * recencyBonus now r.created_at := by ring
      simp only [trendingRow, if_pos h, hscore]
    · intro h
      simp [trendingRow, h]
  · intro t c
    unfold recencyBonus
    by_cases h3 : t - 3 < c
    · rw [if_pos h3, if_pos (show t - c < 3 by linarith)]
    · rw [if_neg h3, if_neg (show ¬t - c < 3 by intro hc; exact h3 (by linarith))]
      by_cases h7 : t - 7 < c
      · rw [if_pos h7, if_pos (show t - c < 7 by linarith)]
      · rw [if_neg h7, if_neg (show ¬t - c < 7 by intro hc; exact h7 (by linarith))]
        by_cases h30 : t - 30 < c
        · rw [if_pos h30, if_pos (show t - c < 30 by linarith)]
        · rw [if_neg h30, if_neg (show ¬t - c < 30 by intro hc; exact h30 (by linarith))]

/-- Witness for C8: the approved sample resource gets the weighted formula,
the pending sample resource is untouched. -/
theorem trending_scores_formula_witness :
    trendingRow dbExample 10 approvedSample
        = { approvedSample with trending_score :=
              (4 / 10) * approvedSample.quality_score
                + (3 / 10) * (recentViewCount dbExample 10 approvedSample.id : ℚ)
                + (2 / 10) * (recentVoteCount dbExample 10 approvedSample.id : ℚ)
                + (1 / 10) * recencyBonus 10 approvedSample.created_at }
    ∧ trendingRow dbExample 10 sampleResource = sampleResource :=
  ⟨((trending_scores_formula dbExample 10).2.1 approvedSample).1 rfl,
    ((trending_scores_formula dbExample 10).2.1 sampleResource).2 (by decide)⟩

/-! ## C5: behaviour of the scorer when configuration keys are absent -/

/-- `system_config` with all three scorer keys absent: the `SELECT ... INTO`
reads leave the PL/pgSQL variables `NULL`. -/
def cfgMissing : Config :=
  { auto_approve_threshold := none
    auto_hide_threshold := none
    min_votes_for_auto_action := none
    weekly_distribution_percentage := 80 }

/-- The worked-example database with the scorer configuration keys absent. -/
def dbMissingCfg : DB := { dbExample with config := cfgMissing }

unseal Rat.add Rat.mul Rat.inv Rat.sub in
/-- Counterexample to C5 as stated: with all three threshold keys absent the
scorer does not fail — PL/pgSQL `SELECT ... INTO` silently yields `NULL`,
and `calculate_quality_score` completes normally, returning the aggregated
counts and score with both verdicts `NULL` (`none`). -/
theorem scorer_proceeds_on_missing_config :
    calculate_quality_score dbMissingCfg 1
      = { upvotes := 3, downvotes := 0, weighted_score := 9, voter_count := 3,
          should_auto_approve := none, should_auto_hide := none } := by
  decide

theorem sqlAnd_eq_true_iff (x y : Option Bool) :
    sqlAnd x y = some true ↔ x = some true ∧ y = some true := by
  cases x with
  | none =>
      cases y with
      | none => simp [sqlAnd]
      | some c => cases c <;> simp [sqlAnd]
  | some b =>
      cases b with
      | false =>
          cases y with
          | none => simp [sqlAnd]
          | some c => cases c <;> simp [sqlAnd]
      | true =>
          cases y with
          | none => simp [sqlAnd]
          | some c => cases c <;> simp [sqlAnd]

theorem should_auto_approve_def (db : DB) (rid : Nat) :
    (calculate_quality_score db rid).should_auto_approve
      = sqlAnd
          (db.config.auto_approve_threshold.map
            (fun t => decide (t ≤ (calculate_quality_score db rid).weighted_score)))
          (db.config.min_votes_for_auto_action.map
            (fun m => decide (m ≤ ((calculate_quality_score db rid).voter_count : Int)))) := rfl

theorem should_auto_hide_def (db : DB) (rid : Nat) :
    (calculate_quality_score db rid).should_auto_hide
      = sqlAnd
          (db.config.auto_hide_threshold.map
            (fun t => decide ((calculate_quality_score db rid).weighted_score ≤ t)))
          (db.config.min_votes_for_auto_action.map
            (fun m => decide (m ≤ ((calculate_quality_score db rid).voter_count : Int)))) := rfl

/-- `update_resource_scores` takes exactly one of three shapes: the
scores-only rewrite, the scores rewrite followed by the approve transition
(only when `should_auto_approve` is true), or the scores rewrite followed by
the hide transition (only when `should_auto_hide` is true). -/
theorem update_resource_scores_cases (db : DB) (rid : Nat) :
    (update_resource_scores db rid).resources
        = db.resources.map (scoreOnlyUpdate rid (calculate_quality_score db rid))
    ∨ ((calculate_quality_score db rid).should_auto_approve = some true
        ∧ (update_resource_scores db rid).resources
            = (db.resources.map (scoreOnlyUpdate rid (calculate_quality_score db rid))).map
                (fun r => if r.id = rid then { r with status := Status.approved } else r))
    ∨ ((calculate_quality_score db rid).should_auto_hide = some true
        ∧ (update_resource_scores db rid).resources
            = (db.resources.map (scoreOnlyUpdate rid (calculate_quality_score db rid))).map
                (fun r => if r.id = rid then { r with status := Status.hidden } else r)) := by
  by_cases hp : statusRead db rid = some Status.pending
  · by_cases ha : (calculate_quality_score db rid).should_auto_approve = some true
    · refine Or.inr (Or.inl ⟨ha, ?_⟩)
      unfold update_resource_scores
      simp only [if_pos hp, if_pos ha]
      rfl
    · by_cases hh : (calculate_quality_score db rid).should_auto_hide = some true
      · refine Or.inr (Or.inr ⟨hh, ?_⟩)
        unfold update_resource_scores
        simp only [if_pos hp, if_neg ha, if_pos hh]
        rfl
      · refine Or.inl ?_
        unfold update_resource_scores
        simp only [if_pos hp, if_neg ha, if_neg hh]
  · refine Or.inl ?_
    unfold update_resource_scores
    simp only [if_neg hp]

theorem zip_map_status_back (g : Resource → Resource) (s : Status)
    (hg : ∀ r : Resource, (g r).status = s → r.status = s) (l : List Resource) :
    ∀ p ∈ (l.map g).zip l, p.1.status = s → p.2.status = s := by
  induction l with
  | nil => intro p hp; simp at hp
  | cons a as ih =>
      intro p hp
      rw [List.map_cons, List.zip_cons_cons] at hp
      rcases List.mem_cons.mp hp with hp | hp
      · subst hp
        exact hg a
      · exact ih p hp

/-- C5 (amended): with a threshold key absent the scorer proceeds with a
`NULL` variable instead of raising an error; each verdict that reads an
absent key (`should_auto_approve` reads `auto_approve_threshold` and
`min_votes_for_auto_action`; `should_auto_hide` reads `auto_hide_threshold`
and `min_votes_for_auto_action`) then evaluates to SQL `NULL` or `FALSE`,
never `TRUE`, so the corresponding auto-transition cannot fire: no resource
is ever auto-approved when an approve key is absent, and none is ever
auto-hidden when a hide key is absent.  There is no permissive default — but
a verdict whose own keys are all present is unaffected (with only
`auto_approve_threshold` absent, auto-hide can still occur). -/
theorem missing_config_never_auto_flags (db : DB) (rid : Nat) :
    ((db.config.auto_approve_threshold = none ∨ db.config.min_votes_for_auto_action = none) →
      (calculate_quality_score db rid).should_auto_approve ≠ some true
        ∧ ∀ p ∈ (update_resource_scores db rid).resources.zip db.resources,
            p.1.status = Status.approved → p.2.status = Status.approved)
    ∧ ((db.config.auto_hide_threshold = none ∨ db.config.min_votes_for_auto_action = none) →
      (calculate_quality_score db rid).should_auto_hide ≠ some true
        ∧ ∀ p ∈ (update_resource_scores db rid).resources.zip db.resources,
            p.1.status = Status.hidden → p.2.status = Status.hidden) := by
  constructor
  · intro h
    have hne : (calculate_quality_score db rid).should_auto_approve ≠ some true := by
      rw [should_auto_approve_def]
      rcases h with h | h <;> rw [h] <;> simp [sqlAnd_eq_true_iff]
    refine ⟨hne, ?_⟩
    rcases update_resource_scores_cases db rid with hcase | ⟨ha, _⟩ | ⟨_, hcase⟩
    · rw [hcase]
      exact zip_map_status_back _ Status.approved
        (fun r hr => by rwa [scoreOnlyUpdate_status] at hr) db.resources
    · exact absurd ha hne
    · rw [hcase, List.map_map]
      refine zip_map_status_back _ Status.approved ?_ db.resources
      intro r hr
      simp only [Function.comp_apply] at hr
      by_cases hid : (scoreOnlyUpdate rid (calculate_quality_score db rid) r).id = rid
      · rw [if_pos hid] at hr
        simp at hr
      · rw [if_neg hid] at hr
        rwa [scoreOnlyUpdate_status] at hr
  · intro h
    have hne : (calculate_quality_score db rid).should_auto_hide ≠ some true := by
      rw [should_auto_hide_def]
      rcases h with h | h <;> rw [h] <;> simp [sqlAnd_eq_true_iff]
    refine ⟨hne, ?_⟩
    rcases update_resource_scores_cases db rid with hcase | ⟨_, hcase⟩ | ⟨hh, _⟩
    · rw [hcase]
      exact zip_map_status_back _ Status.hidden
        (fun r hr => by rwa [scoreOnlyUpdate_status] at hr) db.resources
    · rw [hcase, List.map_map]
      refine zip_map_status_back _ Status.hidden ?_ db.resources
      intro r hr
      simp only [Function.comp_apply] at hr
      by_cases hid : (scoreOnlyUpdate rid (calculate_quality_score db rid) r).id = rid
      · rw [if_pos hid] at hr
        simp at hr
      · rw [if_neg hid] at hr
        rwa [scoreOnlyUpdate_status] at hr
    · exact absurd hh hne

/-- Witness for the amended C5 on the worked example with the config keys
removed: neither verdict is true and neither auto-transition can have
produced the output statuses. -/
theorem missing_config_never_auto_flags_witness :
    ((calculate_quality_score dbMissingCfg 1).should_auto_approve ≠ some true
      ∧ ∀ p ∈ (update_resource_scores dbMissingCfg 1).resources.zip dbMissingCfg.resources,
          p.1.status = Status.approved → p.2.status = Status.approved)
    ∧ ((calculate_quality_score dbMissingCfg 1).should_auto_hide ≠ some true
      ∧ ∀ p ∈ (update_resource_scores dbMissingCfg 1).resources.zip dbMissingCfg.resources,
          p.1.status = Status.hidden → p.2.status = Status.hidden) :=
  ⟨(missing_config_never_auto_flags dbMissingCfg 1).1 (Or.inl rfl),
    (missing_config_never_auto_flags dbMissingCfg 1).2 (Or.inl rfl)⟩

/-! ## Vote toggling (`POST /api/votes`) -/

/-- `Math.min(reputationScore * 0.1 + 1, 5.0)` — the vote weight the route
computes from the voter's current reputation. -/
def voteWeight (rep : Int) : ℚ := min ((rep : ℚ) * (1 / 10) + 1) 5

/-- The existing-vote lookup
`.eq('resource_id', rid).eq('user_id', uid).single()`: under the
`UNIQUE(resource_id, user_id)` table constraint at most one row matches. -/
def findVote (votes : List Vote) (rid uid : Nat) : Option Vote :=
  votes.find? (fun v => decide (v.resource_id = rid) && decide (v.user_id = uid))

/-- The vote-state mutation of `POST /api/votes`: an existing vote of the
same type is deleted (toggle), an existing vote of the opposite type gets
its type and weight updated in place, and with no existing vote a new row is
inserted (`newId` the generated row id, `now` its `created_at`). -/
def castVote (votes : List Vote) (rid uid : Nat) (vt : VoteType) (rep : Int)
    (newId : Nat) (now : ℚ) : List Vote :=
  let weight := voteWeight rep
  match findVote votes rid uid with
  | some existingVote =>
      if existingVote.vote_type = vt then
        votes.filter (fun v => decide (v.id ≠ existingVote.id))
      else
        votes.map (fun v =>
          if v.id = existingVote.id then { v with vote_type := vt, weight := weight } else v)
  | none =>
      votes ++
        [{ id := newId
           resource_id := rid
           user_id := uid
           vote_type := vt
           weight := weight
           created_at := now }]

/-- The `UNIQUE(resource_id, user_id)` invariant: at most one vote per
(resource, user) pair. -/
def onePerPair (votes : List Vote) : Prop :=
  votes.Pairwise (fun a b => ¬(a.resource_id = b.resource_id ∧ a.user_id = b.user_id))

theorem find?_append_of_none {α : Type} (p : α → Bool) (l₁ l₂ : List α)
    (h : l₁.find? p = none) : (l₁ ++ l₂).find? p = l₂.find? p := by
  induction l₁ with
  | nil => simp
  | cons a l ih =>
      cases hpa : p a with
      | true => rw [List.find?_cons_of_pos _ hpa] at h; exact absurd h (by simp)
      | false =>
          rw [List.find?_cons_of_neg _ (by simp [hpa])] at h
          rw [List.cons_append, List.find?_cons_of_neg _ (by simp [hpa])]
          exact ih h

theorem updatedVote_fields (ex : Vote) (vt : VoteType) (w : ℚ) (v : Vote) :
    ((if v.id = ex.id then { v with vote_type := vt, weight := w } else v).resource_id
        = v.resource_id)
    ∧ ((if v.id = ex.id then { v with vote_type := vt, weight := w } else v).user_id
        = v.user_id) := by
  constructor <;> (split <;> rfl)

/-- C7: starting from a state with no vote for (rid, uid) and a fresh row id,
(a) casting the same vote type twice returns exactly the original vote table
(no vote remains for the pair); (b) casting up then down leaves exactly one
vote for the pair — type down, weight recalculated from the reputation
current at the second call; (c) `castVote` preserves the at-most-one-vote-
per-pair invariant on any vote table. -/
theorem vote_toggle_semantics (votes : List Vote) (rid uid : Nat) (vt : VoteType)
    (rep1 rep2 : Int) (n1 n2 : Nat) (t1 t2 : ℚ)
    (hno : ∀ v ∈ votes, ¬(v.resource_id = rid ∧ v.user_id = uid))
    (hfresh : ∀ v ∈ votes, v.id ≠ n1) :
    castVote (castVote votes rid uid vt rep1 n1 t1) rid uid vt rep2 n2 t2 = votes
    ∧ (castVote (castVote votes rid uid VoteType.up rep1 n1 t1) rid uid VoteType.down
          rep2 n2 t2).filter
          (fun v => decide (v.resource_id = rid) && decide (v.user_id = uid))
        = [{ id := n1
             resource_id := rid
             user_id := uid
             vote_type := VoteType.down
             weight := voteWeight rep2
             created_at := t1 }]
    ∧ ∀ vs : List Vote, onePerPair vs → onePerPair (castVote vs rid uid vt rep1 n1 t1) := by
  have hfind : findVote votes rid uid = none := by
    rw [findVote, List.find?_eq_none]
    intro v hv
    simpa using hno v hv
  have hfirst : ∀ vt' : VoteType, ∀ rep' : Int,
      castVote votes rid uid vt' rep' n1 t1
        = votes ++
            [{ id := n1
               resource_id := rid
               user_id := uid
               vote_type := vt'
               weight := voteWeight rep'
               created_at := t1 }] := by
    intro vt' rep'
    simp [castVote, hfind]
  have hfind2 : ∀ vt' : VoteType, ∀ rep' : Int,
      findVote (castVote votes rid uid vt' rep' n1 t1) rid uid
        = some
            { id := n1
              resource_id := rid
              user_id := uid
              vote_type := vt'
              weight := voteWeight rep'
              created_at := t1 } := by
    intro vt' rep'
    rw [hfirst vt' rep', findVote, find?_append_of_none _ _ _ (by rw [findVote] at hfind; exact hfind)]
    simp [List.find?]
  refine ⟨?_, ?_, ?_⟩
  · -- (a) same type twice: the second call deletes the inserted vote.
    rw [castVote]
    rw [hfind2 vt rep1]
    simp only [if_pos rfl]
    rw [hfirst vt rep1, List.filter_append]
    simp only [List.filter, decide_not]
    simp
    exact hfresh
  · -- (b) up then down: the second call updates the inserted vote in place.
    rw [castVote]
    rw [hfind2 VoteType.up rep1]
    simp only [reduceCtorEq, if_neg]
    rw [hfirst VoteType.up rep1, List.map_append, List.filter_append]
    have hmap : votes.map (fun v =>
        if v.id = n1 then { v with vote_type := VoteType.down, weight := voteWeight rep2 }
        else v) = votes := by
      have := List.map_congr_left (l := votes)
        (f := fun v =>
          if v.id = n1 then { v with vote_type := VoteType.down, weight := voteWeight rep2 }
          else v) (g := fun v => v) (fun v hv => by simp [hfresh v hv])
      simpa using this
    have hdrop : votes.filter
        (fun v => decide (v.resource_id = rid) && decide (v.user_id = uid)) = [] := by
      rw [List.filter_eq_nil_iff]
      intro v hv
      simpa using hno v hv
    simp [hmap, hdrop, List.filter]
  · -- (c) the uniqueness invariant is preserved.
    intro vs hvs
    unfold onePerPair at hvs ⊢
    rw [castVote]
    cases hcase : findVote vs rid uid with
    | some ex =>
        by_cases het : ex.vote_type = vt
        · simp only [if_pos het]
          exact hvs.sublist (List.filter_sublist _)
        · simp only [if_neg het]
          rw [List.pairwise_map]
          refine List.Pairwise.imp ?_ hvs
          intro a b hab
          rw [(updatedVote_fields ex vt (voteWeight rep1) a).1,
            (updatedVote_fields ex vt (voteWeight rep1) a).2,
            (updatedVote_fields ex vt (voteWeight rep1) b).1,
            (updatedVote_fields ex vt (voteWeight rep1) b).2]
          exact hab
    | none =>
        refine List.pairwise_append.mpr ⟨hvs, by simp, ?_⟩
        intro a ha b hb
        have hb' := List.mem_singleton.mp hb
        subst hb'
        unfold findVote at hcase
        rw [List.find?_eq_none] at hcase
        intro hcontra
        simp only at hcontra
        exact hcase a ha (by simp [hcontra.1, hcontra.2])

/-- A vote table holding one unrelated vote (other resource, other user). -/
def votesW : List Vote := [⟨50, 2, 9, VoteType.up, 1, 0⟩]

unseal Rat.add Rat.mul Rat.inv Rat.sub in
/-- Witness for C7 on a table with one unrelated vote: toggle removes, then
up-then-down leaves the single recalculated down vote, and the invariant is
preserved. -/
theorem vote_toggle_semantics_witness :
    castVote (castVote votesW 1 7 VoteType.up 0 100 0) 1 7 VoteType.up 20 101 0 = votesW
    ∧ (castVote (castVote votesW 1 7 VoteType.up 0 100 0) 1 7 VoteType.down 20 101 0).filter
          (fun v => decide (v.resource_id = 1) && decide (v.user_id = 7))
        = [{ id := 100
             resource_id := 1
             user_id := 7
             vote_type := VoteType.down
             weight := voteWeight 20
             created_at := 0 }]
    ∧ onePerPair (castVote votesW 1 7 VoteType.up 0 100 0) :=
  ⟨(vote_toggle_semantics votesW 1 7 VoteType.up 0 20 100 101 0 0 (by decide) (by decide)).1,
    (vote_toggle_semantics votesW 1 7 VoteType.up 0 20 100 101 0 0 (by decide) (by decide)).2.1,
    (vote_toggle_semantics votesW 1 7 VoteType.up 0 20 100 101 0 0 (by decide)
      (by decide)).2.2 votesW (by simp [onePerPair, votesW])⟩

/-! ## Recommendation Selector (`GET /api/discover` and
`get_personalized_recommendations`) -/

/-- Stable insertion of `a` into `l`: `a` goes before the first element `b`
with `le a b` true. -/
def insertSorted {α : Type} (le : α → α → Bool) (a : α) : List α → List α
  | [] => [a]
  | b :: bs => if le a b then a :: b :: bs else b :: insertSorted le a bs

/-- Stable insertion sort, modelling SQL `ORDER BY` and JavaScript
`Array.prototype.sort`. -/
def insertionSort {α : Type} (le : α → α → Bool) : List α → List α
  | [] => []
  | a :: as => insertSorted le a (insertionSort le as)

/-- Resources counted into the pool: created in the window
`[week_start, week_end + 1 day]` with a non-`NULL` `submission_tx_hash`. -/
def poolResources (db : DB) (week_start : ℚ) : List Resource :=
  db.resources.filter (fun r =>
    decide (week_start ≤ r.created_at) && decide (r.created_at ≤ week_start + 7)
      && r.submission_tx_hash.isSome)

/-- `total_pool`: summed `submission_amount` of the window's paid submissions
times `weekly_distribution_percentage / 100`. -/
def weeklyPool (db : DB) (week_start : ℚ) : ℚ :=
  ((poolResources db week_start).map (fun r => r.submission_amount)).sum
    * (db.config.weekly_distribution_percentage / 100)

/-- The `ranked_content` eligibility filter: created in the window, status
approved, strictly positive quality score. -/
def eligibleResources (db : DB) (week_start : ℚ) : List Resource :=
  db.resources.filter (fun r =>
    decide (week_start ≤ r.created_at) && decide (r.created_at ≤ week_start + 7)
      && decide (r.status = Status.approved) && decide (0 < r.quality_score))

/-- `ORDER BY r.quality_score DESC, r.created_at ASC`. -/
def rankOrder (a b : Resource) : Bool :=
  decide (b.quality_score < a.quality_score)
    || (decide (a.quality_score = b.quality_score) && decide (a.created_at ≤ b.created_at))

/-- `ROW_NUMBER()` pairing, starting at `start`. -/
def withRanks {α : Type} (start : Nat) : List α → List (Nat × α)
  | [] => []
  | a :: as => (start, a) :: withRanks (start + 1) as

/-- The `CASE rank` percentage table: 30%, 20%, 15%, 10%, 8% for ranks 1-5
and 3.4% for every other rank (ranks 6-10, 17% total). -/
def rankPct : Nat → ℚ
  | 1 => 30 / 100
  | 2 => 20 / 100
  | 3 => 15 / 100
  | 4 => 10 / 100
  | 5 => 8 / 100
  | _ => 34 / 1000

/-- `calculate_weekly_rewards(week_start_date)`: computes the pool, inserts a
new `weekly_rewards` row (id generated fresh; `calculation_completed_at`
stamped at the end of the same run), ranks the window's eligible resources,
takes the top 10 and inserts one `reward_distributions` row per rank.  The
function performs no existence check for an already-processed week and the
schema has no uniqueness constraint on `week_start`. -/
def calculate_weekly_rewards (db : DB) (week_start : ℚ) : DB × Nat :=
  let week_end := week_start + 6
  let total_pool := weeklyPool db week_start
  let reward_id := db.weekly_rewards.length
  let top := (insertionSort rankOrder (eligibleResources db week_start)).take 10
  let dists : List RewardDistribution := (withRanks 1 top).map (fun p =>
    { weekly_reward_id := reward_id
      user_id := p.2.submitted_by
      resource_id := p.2.id
      amount := total_pool * rankPct p.1
      rank := p.1
      quality_score := p.2.quality_score })
  ({ db with
      weekly_rewards := db.weekly_rewards ++
        [{ id := reward_id
           week_start := week_start
           week_end := week_end
           total_pool_amount := total_pool
           calculation_completed := true }]
      reward_distributions := db.reward_distributions ++ dists },
    reward_id)

theorem withRanks_length {α : Type} (start : Nat) (l : List α) :
    (withRanks start l).length = l.length := by
  induction l generalizing start with
  | nil => rfl
  | cons a as ih => simp [withRanks, ih]

theorem insertSorted_length {α : Type} (le : α → α → Bool) (a : α) (l : List α) :
    (insertSorted le a l).length = l.length + 1 := by
  induction l with
  | nil => rfl
  | cons b bs ih =>
      rw [insertSorted]
      split
      · simp
      · simp [ih]

theorem insertionSort_length {α : Type} (le : α → α → Bool) (l : List α) :
    (insertionSort le l).length = l.length := by
  induction l with
  | nil => rfl
  | cons a as ih => rw [insertionSort, insertSorted_length, ih, List.length_cons]

theorem cwr_weekly_rewards (db : DB) (ws : ℚ) :
    (calculate_weekly_rewards db ws).1.weekly_rewards
      = db.weekly_rewards ++
          [{ id := db.weekly_rewards.length
             week_start := ws
             week_end := ws + 6
             total_pool_amount := weeklyPool db ws
             calculation_completed := true }] := rfl

theorem cwr_distributions (db : DB) (ws : ℚ) :
    (calculate_weekly_rewards db ws).1.reward_distributions
      = db.reward_distributions ++
          (withRanks 1 ((insertionSort rankOrder (eligibleResources db ws)).take 10)).map
            (fun p =>
              { weekly_reward_id := db.weekly_rewards.length
                user_id := p.2.submitted_by
                resource_id := p.2.id
                amount := weeklyPool db ws * rankPct p.1
                rank := p.1
                quality_score := p.2.quality_score }) := rfl

theorem eligible_after_cwr (db : DB) (ws ws' : ℚ) :
    eligibleResources (calculate_weekly_rewards db ws).1 ws' = eligibleResources db ws' := rfl

/-- C3 is violated by the code: re-running `calculate_weekly_rewards` for the
same `week_start_date` inserts a second `weekly_rewards` row for that week
and a second full set of `reward_distributions` rows (one per top-ranked
eligible resource), on every database state. -/
theorem weekly_rewards_double_insert (db : DB) (ws : ℚ) :
    ((calculate_weekly_rewards (calculate_weekly_rewards db ws).1 ws).1.weekly_rewards.filter
          (fun w => decide (w.week_start = ws))).length
      = (db.weekly_rewards.filter (fun w => decide (w.week_start = ws))).length + 2
    ∧ (calculate_weekly_rewards
          (calculate_weekly_rewards db ws).1 ws).1.reward_distributions.length
      = db.reward_distributions.length + 2 * min 10 (eligibleResources db ws).length := by
  constructor
  · rw [cwr_weekly_rewards, cwr_weekly_rewards, List.filter_append, List.filter_append,
      List.length_append, List.length_append]
    simp
  · rw [cwr_distributions, cwr_distributions, List.length_append, List.length_append,
      List.length_map, List.length_map, withRanks_length, withRanks_length,
      List.length_take, List.length_take, insertionSort_length, insertionSort_length,
      eligible_after_cwr]
    omega

theorem withRanks_amounts_of_length_ten (pool : ℚ) (l : List Resource)
    (h : l.length = 10) :
    (withRanks 1 l).map (fun p => pool * rankPct p.1)
      = [pool * (30 / 100), pool * (20 / 100), pool * (15 / 100), pool * (10 / 100),
          pool * (8 / 100), pool * (34 / 1000), pool * (34 / 1000), pool * (34 / 1000),
          pool * (34 / 1000), pool * (34 / 1000)] := by
  rcases l with _ | ⟨a1, l⟩
  · simp at h
  rcases l with _ | ⟨a2, l⟩
  · simp at h
  rcases l with _ | ⟨a3, l⟩
  · simp at h
  rcases l with _ | ⟨a4, l⟩
  · simp at h
  rcases l with _ | ⟨a5, l⟩
  · simp at h
  rcases l with _ | ⟨a6, l⟩
  · simp at h
  rcases l with _ | ⟨a7, l⟩
  · simp at h
  rcases l with _ | ⟨a8, l⟩
  · simp at h
  rcases l with _ | ⟨a9, l⟩
  · simp at h
  rcases l with _ | ⟨a10, l⟩
  · simp at h
  have hlen0 : l.length = 0 := by
    simp only [List.length_cons] at h
    omega
  have hnil := List.length_eq_zero.mp hlen0
  subst hnil
  simp [withRanks, rankPct]

/-- C6: for a week with at least 10 eligible resources, the inserted
distribution amounts are `pool * 30%`, `20%`, `15%`, `10%`, `8%` for ranks
1-5 and `pool * 3.4%` for each of ranks 6-10, and their sum is exactly the
full pool. -/
theorem reward_allocation_sums_to_pool (db : DB) (ws : ℚ)
    (h : 10 ≤ (eligibleResources db ws).length) :
    ((calculate_weekly_rewards db ws).1.reward_distributions.drop
          db.reward_distributions.length).map (fun d => d.amount)
      = [weeklyPool db ws * (30 / 100), weeklyPool db ws * (20 / 100),
          weeklyPool db ws * (15 / 100), weeklyPool db ws * (10 / 100),
          weeklyPool db ws * (8 / 100), weeklyPool db ws * (34 / 1000),
          weeklyPool db ws * (34 / 1000), weeklyPool db ws * (34 / 1000),
          weeklyPool db ws * (34 / 1000), weeklyPool db ws * (34 / 1000)]
    ∧ (((calculate_weekly_rewards db ws).1.reward_distributions.drop
          db.reward_distributions.length).map (fun d => d.amount)).sum
      = weeklyPool db ws := by
  have hlen : ((insertionSort rankOrder (eligibleResources db ws)).take 10).length = 10 := by
    rw [List.length_take, insertionSort_length]
    omega
  have hamounts : ((calculate_weekly_rewards db ws).1.reward_distributions.drop
        db.reward_distributions.length).map (fun d => d.amount)
      = (withRanks 1 ((insertionSort rankOrder (eligibleResources db ws)).take 10)).map
          (fun p => weeklyPool db ws * rankPct p.1) := by
    rw [cwr_distributions, List.drop_left, List.map_map]
    rfl
  rw [hamounts, withRanks_amounts_of_length_ten _ _ hlen]
  refine ⟨rfl, ?_⟩
  simp only [List.sum_cons, List.sum_nil]
  ring

/-- One of ten eligible resources for the C6 witness week. -/
def mkEligible (i : Nat) : Resource :=
  { id := 100 + i
    category := "articles"
    tags := []
    difficulty_level := none
    estimated_time_minutes := none
    submitted_by := 1
    submission_tx_hash := some i
    submission_amount := 1000
    status := Status.approved
    upvotes := 0
    downvotes := 0
    quality_score := ((10 - i : Nat) : ℚ)
    trending_score := 0
    created_at := 1 }

/-- A database with exactly ten eligible resources for the week starting 0. -/
def dbTenEligible : DB :=
  { users := [⟨1, 0⟩]
    resources := (List.range 10).map mkEligible
    votes := []
    interactions := []
    prefs := []
    weekly_rewards := []
    reward_distributions := []
    config := cfgDefault }

unseal Rat.add Rat.mul Rat.inv Rat.sub in
/-- Witness for C6 on the ten-eligible-resource week. -/
theorem reward_allocation_sums_to_pool_witness :
    ((calculate_weekly_rewards dbTenEligible 0).1.reward_distributions.drop
          dbTenEligible.reward_distributions.length).map (fun d => d.amount)
      = [weeklyPool dbTenEligible 0 * (30 / 100), weeklyPool dbTenEligible 0 * (20 / 100),
          weeklyPool dbTenEligible 0 * (15 / 100), weeklyPool dbTenEligible 0 * (10 / 100),
          weeklyPool dbTenEligible 0 * (8 / 100), weeklyPool dbTenEligible 0 * (34 / 1000),
          weeklyPool dbTenEligible 0 * (34 / 1000), weeklyPool dbTenEligible 0 * (34 / 1000),
          weeklyPool dbTenEligible 0 * (34 / 1000), weeklyPool dbTenEligible 0 * (34 / 1000)]
    ∧ (((calculate_weekly_rewards dbTenEligible 0).1.reward_distributions.drop
          dbTenEligible.reward_distributions.length).map (fun d => d.amount)).sum
      = weeklyPool dbTenEligible 0 :=
  reward_allocation_sums_to_pool dbTenEligible 0 (by decide)

end StumbleHigher
